import Mathlib

/-!
Shallow embedding of the FreshMart grocery bot (src/bot.py).

Python dictionaries are modelled as insertion-ordered association lists
(`List (κ × α)`) with the operations `lookupKey` (dict lookup / `.get`),
`setKey` (dict assignment `d[k] = v`: replaces the value in place if the key
is present, otherwise appends a new entry at the end, exactly as a Python
dict), `hasKey` (`k in d`) and `countKey` (number of entries for a key;
always 0 or 1 for states reachable through `setKey`).

Money amounts (the `price` floats of the source) are modelled as exact
rationals; all the amounts appearing in the catalog and in the claims are
decimal fractions on which the float computations of the source and the
rational computations agree.

Side effects are made explicit: every function of the source that calls
`send_message` or `logger.*` returns, next to its value and the updated
state, the list of messages sent (recipient plus an abstract message kind,
one constructor per `send_message` call site of the source) and the list of
log events emitted.
-/

namespace FreshMart

/-- Python dict lookup `d.get(k)` on an association list: value of the first
entry with the given key. -/
def lookupKey {κ α : Type} [DecidableEq κ] : List (κ × α) → κ → Option α
  | [], _ => none
  | (k2, v) :: rest, k => if k2 = k then some v else lookupKey rest k

/-- Python dict assignment `d[k] = v`: replace the first entry with this key,
or append a new entry at the end when the key is absent. -/
def setKey {κ α : Type} [DecidableEq κ] : List (κ × α) → κ → α → List (κ × α)
  | [], k, v => [(k, v)]
  | (k2, v2) :: rest, k, v =>
      if k2 = k then (k, v) :: rest else (k2, v2) :: setKey rest k v

/-- Python membership test `k in d`. -/
def hasKey {κ α : Type} [DecidableEq κ] : List (κ × α) → κ → Bool
  | [], _ => false
  | (k2, _) :: rest, k => if k2 = k then true else hasKey rest k

/-- Number of entries carrying a given key (0 or 1 in any reachable state). -/
def countKey {κ α : Type} [DecidableEq κ] : List (κ × α) → κ → Nat
  | [], _ => 0
  | (k2, _) :: rest, k => (if k2 = k then 1 else 0) + countKey rest k

theorem lookupKey_setKey_self {κ α : Type} [DecidableEq κ]
    (m : List (κ × α)) (k : κ) (v : α) : lookupKey (setKey m k v) k = some v := by
  induction m with
  | nil => simp [setKey, lookupKey]
  | cons p rest ih =>
      obtain ⟨k2, v2⟩ := p
      by_cases h : k2 = k
      · simp [setKey, h, lookupKey]
      · simp [setKey, h, lookupKey, ih]

theorem setKey_of_lookup_none {κ α : Type} [DecidableEq κ]
    (m : List (κ × α)) (k : κ) (v : α) (h : lookupKey m k = none) :
    setKey m k v = m ++ [(k, v)] := by
  induction m with
  | nil => simp [setKey]
  | cons p rest ih =>
      obtain ⟨k2, v2⟩ := p
      by_cases hk : k2 = k
      · simp [lookupKey, hk] at h
      · simp [lookupKey, hk] at h
        simp [setKey, hk, ih h]

theorem lookupKey_append {κ α : Type} [DecidableEq κ]
    (m l : List (κ × α)) (k : κ) (h : lookupKey m k = none) :
    lookupKey (m ++ l) k = lookupKey l k := by
  induction m with
  | nil => simp
  | cons p rest ih =>
      obtain ⟨k2, v2⟩ := p
      by_cases hk : k2 = k
      · simp [lookupKey, hk] at h
      · simp [lookupKey, hk] at h ⊢
        exact ih h

theorem setKey_append_of_lookup_none {κ α : Type} [DecidableEq κ]
    (m l : List (κ × α)) (k : κ) (v : α) (h : lookupKey m k = none) :
    setKey (m ++ l) k v = m ++ setKey l k v := by
  induction m with
  | nil => simp
  | cons p rest ih =>
      obtain ⟨k2, v2⟩ := p
      by_cases hk : k2 = k
      · simp [lookupKey, hk] at h
      · simp [lookupKey, hk] at h
        simp [setKey, hk, ih h]

theorem countKey_eq_zero_of_lookup_none {κ α : Type} [DecidableEq κ]
    (m : List (κ × α)) (k : κ) (h : lookupKey m k = none) :
    countKey m k = 0 := by
  induction m with
  | nil => simp [countKey]
  | cons p rest ih =>
      obtain ⟨k2, v2⟩ := p
      by_cases hk : k2 = k
      · simp [lookupKey, hk] at h
      · simp [lookupKey, hk] at h
        simp [countKey, hk, ih h]

theorem countKey_append {κ α : Type} [DecidableEq κ]
    (m l : List (κ × α)) (k : κ) :
    countKey (m ++ l) k = countKey m k + countKey l k := by
  induction m with
  | nil => simp [countKey]
  | cons p rest ih =>
      obtain ⟨k2, v2⟩ := p
      simp [countKey, ih, Nat.add_assoc]

/-- One cart line: the `{'price': .., 'unit': .., 'quantity': ..}` inner dict
of `user_carts` (src/bot.py, `handle_add_to_cart`). -/
structure CartLine where
  price : ℚ
  unit : String
  quantity : ℕ
  deriving Repr, DecidableEq

/-- A customer cart: the inner dict `user_carts[chat_id]`, item name to line. -/
abbrev Cart := List (String × CartLine)

/-- The static catalog `grocery_categories` of src/bot.py:
category name to (item name to (price, unit)). -/
def grocery_categories : List (String × List (String × ℚ × String)) :=
  [("🥦 Fresh Produce",
    [("🍎 Apples", (399/100, "kg")),
     ("🍌 Bananas", (199/100, "kg")),
     ("🥕 Carrots", (249/100, "kg")),
     ("🥬 Spinach", (499/100, "bunch")),
     ("🍅 Tomatoes", (349/100, "kg"))]),
   ("🥩 Meat & Poultry",
    [("🍗 Chicken Breast", (1299/100, "kg")),
     ("🥩 Beef Steak", (2499/100, "kg")),
     ("🐟 Salmon Fillet", (1899/100, "kg")),
     ("🥓 Bacon", (899/100, "pack"))]),
   ("🥛 Dairy & Eggs",
    [("🥛 Milk", (299/100, "liter")),
     ("🧀 Cheese", (699/100, "block")),
     ("🍳 Eggs", (499/100, "dozen")),
     ("🧈 Butter", (399/100, "block"))])]

/-- The catalog scan at the top of `handle_add_to_cart` (src/bot.py 565-569):
iterate over the categories in order and return the first entry holding the
item name. -/
def find_item (item_name : String) : Option (ℚ × String) :=
  grocery_categories.findSome? (fun c => lookupKey c.2 item_name)

/-- The in-place increment `user_carts[chat_id][item_name]['quantity'] += 1`
(src/bot.py 579) on the value-level cart: bump the quantity of the first line
with this item name. -/
def incrQty : Cart → String → Cart
  | [], _ => []
  | (n, l) :: rest, item =>
      if n = item then (n, { l with quantity := l.quantity + 1 }) :: rest
      else (n, l) :: incrQty rest item

/-- Recipient plus abstract content of one `send_message` call. Each
constructor of `MsgKind` stands for one `send_message` call site of
src/bot.py, carrying the data interpolated into that site's text. -/
inductive MsgKind where
  /-- "Item not found. Please select from the menu." (handle_add_to_cart) -/
  | itemNotFound
  /-- "✅ Added to Cart! ..." (handle_add_to_cart) -/
  | addedToCart (item_name : String)
  /-- "❌ Unauthorized access." (handle_admin_callback) -/
  | unauthorized
  /-- Shipped template of notify_customer_order_update, carrying the order id,
  the order total and the admin note. -/
  | statusShipped (order_id : String) (total : ℚ) (note : String)
  /-- Cancelled template of notify_customer_order_update; the reason defaults
  to the generic one when the admin note is empty. -/
  | statusCancelled (order_id reason : String)
  /-- Delivered template of notify_customer_order_update. -/
  | statusDelivered (order_id : String)
  /-- "✅ Order #.. marked as shipped! ..." (handle_admin_callback) -/
  | adminShipOk (order_id : String)
  /-- "❌ Order #.. not found." (handle_admin_callback) -/
  | adminOrderNotFound (order_id : String)
  /-- "📝 Please provide reason for cancelling order #..:" -/
  | adminCancelPrompt (order_id : String)
  /-- "✅ Order #.. marked as delivered! ..." (handle_admin_callback) -/
  | adminDeliverOk (order_id : String)
  /-- "📋 Order Details #.." (handle_admin_callback, details branch) -/
  | adminDetails (order_id : String)
  /-- "❌ Error processing admin action." (handle_admin_callback except) -/
  | adminActionError
  /-- Customer order confirmation of process_cash_on_delivery, carrying the
  order id and the total the customer must have ready. -/
  | orderConfirmation (order_id : String) (total : ℚ)
  /-- "🆕 NEW ORDER #.." admin alert (send_admin_order_notification). -/
  | adminNewOrder (order_id : String)
  /-- "❌ Sorry, there was an error processing your order. ..."
  (process_cash_on_delivery except branch). -/
  | orderProcessingError
  deriving Repr, DecidableEq

/-- One outbound message: the recipient chat id as passed to `send_message`
(stringified, since the admin id is configured as a string) and the kind. -/
structure MsgOut where
  recipient : String
  kind : MsgKind
  deriving Repr, DecidableEq

/-- One log event. Only the log sites relevant to the claims are modelled,
one constructor per `logger.*` call site. -/
inductive LogEvent where
  /-- "📦 Order received: .." (save_order_to_sheet, line 397) -/
  | orderReceived
  /-- "ℹ️ Google Sheets not connected, order saved locally only" -/
  | sheetNotConnected
  /-- "✅ Order saved to Google Sheets successfully!" -/
  | sheetSaveOk
  /-- "❌ Google Sheets save failed: .." -/
  | sheetSaveFailed
  /-- "⚠️ Order saved locally but Google Sheets failed"
  (process_cash_on_delivery, line 465) -/
  | sheetsFailedWarning
  /-- "✅ COD order completed successfully .." -/
  | codCompleted
  deriving Repr, DecidableEq

/-- One customer session `user_sessions[chat_id]`: the `step` string together
with the extra fields each step stores (src/bot.py handle_message and
handle_admin_callback). -/
inductive Session where
  | main_menu
  | browsing_category (current_category : String)
  | awaiting_name
  | awaiting_phone (customer_name : String)
  | awaiting_address (customer_name phone : String)
  | awaiting_instructions (customer_name phone address : String)
  | awaiting_cancel_reason (order_id : String)
  deriving Repr, DecidableEq

/-- One record of `order_tracking` (save_order_tracking, src/bot.py 120-133). -/
structure Order where
  chat_id : ℤ
  customer_name : String
  phone : String
  address : String
  cart : Cart
  total : ℚ
  status : String
  created_at : String
  updated_at : String
  deriving Repr, DecidableEq

/-- The three global mutable maps of src/bot.py (lines 110-112). -/
structure BotState where
  user_carts : List (ℤ × Cart)
  user_sessions : List (ℤ × Session)
  order_tracking : List (String × Order)
  deriving Repr, DecidableEq

/-- `handle_add_to_cart` (src/bot.py 564-594), acting on the `user_carts`
map: scan the catalog for the item; if absent reply "Item not found" and
change nothing; otherwise create the customer's cart if missing, then either
increment the existing line's quantity or append a fresh line with quantity 1
snapshotting the catalog price/unit. -/
def handle_add_to_cart (carts : List (ℤ × Cart)) (chat_id : ℤ)
    (item_name : String) : List (ℤ × Cart) × List MsgOut :=
  match find_item item_name with
  | none => (carts, [⟨toString chat_id, .itemNotFound⟩])
  | some d =>
      let cart := (lookupKey carts chat_id).getD []
      let cart2 :=
        if hasKey cart item_name then incrQty cart item_name
        else cart ++ [(item_name, ⟨d.1, d.2, 1⟩)]
      (setKey carts chat_id cart2, [⟨toString chat_id, .addedToCart item_name⟩])

/-- The pricing computation of `create_enhanced_order_summary`
(src/bot.py 362-364): subtotal, delivery fee, total. The function of the
source returns the rendered summary string together with the total; the
string is display-only and its numeric content is exactly this triple. -/
def create_enhanced_order_summary (cart : Cart) : ℚ × ℚ × ℚ :=
  let subtotal := (cart.map (fun p => p.2.price * (p.2.quantity : ℚ))).sum
  let delivery_fee : ℚ := if subtotal ≥ 50 then 0 else 5
  (subtotal, delivery_fee, subtotal + delivery_fee)

/-- The pricing computation of `show_cart` (src/bot.py 606-617): the running
total accumulated over the lines in display order, then the delivery fee and
the final total. -/
def show_cart_totals (cart : Cart) : ℚ × ℚ × ℚ :=
  let total := cart.foldl (fun acc p => acc + p.2.price * (p.2.quantity : ℚ)) 0
  let delivery_fee : ℚ := if total ≥ 50 then 0 else 5
  (total, delivery_fee, total + delivery_fee)

/-- The pricing computation of the row preparation in `save_order_to_sheet`
(src/bot.py 402-404). -/
def save_order_to_sheet_totals (cart : Cart) : ℚ × ℚ × ℚ :=
  let subtotal := (cart.map (fun p => p.2.price * (p.2.quantity : ℚ))).sum
  let delivery_fee : ℚ := if subtotal ≥ 50 then 0 else 5
  (subtotal, delivery_fee, subtotal + delivery_fee)

/-- `generate_order_id` (src/bot.py 116-118): the string "ORD" followed by
the integer wall-clock second `int(time.time())`, passed in as `t`. -/
def generate_order_id (t : ℕ) : String :=
  "ORD" ++ toString t

/-- `save_order_tracking` (src/bot.py 120-133): store the order record under
the order id, with status as given (the call sites pass "Pending") and both
timestamps set to now. `cart.copy()` duplicates the outer dict; at the level
of this value model the stored cart is the mapping passed in. -/
def save_order_tracking (tracking : List (String × Order)) (order_id : String)
    (chat_id : ℤ) (customer_name phone address : String) (cart : Cart)
    (total : ℚ) (status : String) (now : String) : List (String × Order) :=
  setKey tracking order_id
    { chat_id := chat_id, customer_name := customer_name, phone := phone,
      address := address, cart := cart, total := total, status := status,
      created_at := now, updated_at := now }

/-- `notify_customer_order_update` (src/bot.py 164-214): look the order up;
if absent, send nothing; otherwise send the status-specific template to the
order's customer — the `status_messages` dict holds templates exactly for
"Shipped", "Cancelled" and "Delivered", so any other status sends nothing. -/
def notify_customer_order_update (tracking : List (String × Order))
    (order_id new_status admin_note : String) : List MsgOut :=
  match lookupKey tracking order_id with
  | none => []
  | some order =>
      if new_status = "Shipped" then
        [⟨toString order.chat_id, .statusShipped order_id order.total admin_note⟩]
      else if new_status = "Cancelled" then
        [⟨toString order.chat_id, .statusCancelled order_id
            (if admin_note = "" then "Unable to fulfill order at this time"
             else admin_note)⟩]
      else if new_status = "Delivered" then
        [⟨toString order.chat_id, .statusDelivered order_id⟩]
      else []

/-- `update_order_status` (src/bot.py 135-162): fail (returning the tracking
unchanged and sending nothing) when the order id is absent; otherwise mutate
the record's status and updated_at in place, best-effort update the sheet
row (external I/O, no effect on bot state), then notify the customer.
Returns (success, new tracking, messages sent). -/
def update_order_status (tracking : List (String × Order))
    (order_id new_status admin_note now : String) :
    Bool × List (String × Order) × List MsgOut :=
  match lookupKey tracking order_id with
  | none => (false, tracking, [])
  | some order =>
      let tracking2 := setKey tracking order_id
        { order with status := new_status, updated_at := now }
      (true, tracking2,
       notify_customer_order_update tracking2 order_id new_status admin_note)

/-- Python `s.startswith(pre)`: prefix test on the character sequence.
(`String.startsWith` of core is byte-position based and is opaque to kernel
reduction, so the character-list form is used; Python string indexing is by
characters as well.) -/
def startswith (s pre : String) : Bool :=
  pre.data.isPrefixOf s.data

/-- Python slicing `s[n:]`: drop the first `n` characters. -/
def strDrop (s : String) (n : ℕ) : String :=
  ⟨s.data.drop n⟩

/-- Whether the authorization guard at the top of `handle_admin_callback`
(src/bot.py 266) rejects the sender: `not ADMIN_CHAT_ID or str(chat_id) !=
ADMIN_CHAT_ID`. An unset (`none`) or empty configured admin id is falsy in
Python, so it rejects every sender. -/
def adminAuthFails (admin_chat_id : Option String) (chat_id : ℤ) : Bool :=
  match admin_chat_id with
  | none => true
  | some a => a == "" || toString chat_id != a

/-- `handle_admin_callback` (src/bot.py 264-318). Unauthorized senders get
the unauthorized notice and nothing else happens. Otherwise dispatch on the
token prefix: ship and deliver run `update_order_status`; cancel stores the
awaiting-cancel-reason session for the admin and prompts for a reason;
details looks the order up — note that for a non-empty stored cart the
details branch of the source rebinds its accumulator variable `details` to a
dict in the `for` loop and then applies `+=` to it, raising a TypeError that
the surrounding `except` turns into the admin-action-error message, so the
rendered details are only ever sent for an order with an empty cart. -/
def handle_admin_callback (admin_chat_id : Option String) (st : BotState)
    (chat_id : ℤ) (callback_data : String) (now : String) :
    BotState × List MsgOut :=
  if adminAuthFails admin_chat_id chat_id then
    (st, [⟨toString chat_id, .unauthorized⟩])
  else if startswith callback_data "ship_" then
    let order_id := strDrop callback_data 5
    let r := update_order_status st.order_tracking order_id "Shipped"
      "Your order is on the way!" now
    ({ st with order_tracking := r.2.1 },
     r.2.2 ++ [⟨toString chat_id,
       if r.1 then .adminShipOk order_id else .adminOrderNotFound order_id⟩])
  else if startswith callback_data "cancel_" then
    let order_id := strDrop callback_data 7
    let sessions2 :=
      setKey st.user_sessions chat_id (.awaiting_cancel_reason order_id)
    ({ st with user_sessions := sessions2 },
     [⟨toString chat_id, .adminCancelPrompt order_id⟩])
  else if startswith callback_data "deliver_" then
    let order_id := strDrop callback_data 8
    let r := update_order_status st.order_tracking order_id "Delivered" "" now
    ({ st with order_tracking := r.2.1 },
     r.2.2 ++ [⟨toString chat_id,
       if r.1 then .adminDeliverOk order_id else .adminOrderNotFound order_id⟩])
  else if startswith callback_data "details_" then
    let order_id := strDrop callback_data 8
    match lookupKey st.order_tracking order_id with
    | some order =>
        if order.cart.isEmpty then
          (st, [⟨toString chat_id, .adminDetails order_id⟩])
        else
          (st, [⟨toString chat_id, .adminActionError⟩])
    | none => (st, [⟨toString chat_id, .adminOrderNotFound order_id⟩])
  else (st, [])

/-- Outcome of one interaction with the external sheet when appending an
order row: the sheet client is not configured, the append succeeds, or the
append raises. -/
inductive SheetOutcome where
  | disabled
  | appendOk
  | appendFail
  deriving Repr, DecidableEq

/-- `save_order_to_sheet` (src/bot.py 395-443): log the received order; when
the sheet is connected, compute the row (whose money columns are
`save_order_to_sheet_totals`) and append it, returning False exactly when
the append raises; when the sheet is not connected, return True. The middle
component is the money content of the row actually appended, if any. -/
def save_order_to_sheet (outcome : SheetOutcome) (cart : Cart) :
    Bool × Option (ℚ × ℚ × ℚ) × List LogEvent :=
  match outcome with
  | .disabled => (true, none, [.orderReceived, .sheetNotConnected])
  | .appendOk => (true, some (save_order_to_sheet_totals cart),
      [.orderReceived, .sheetSaveOk])
  | .appendFail => (false, none, [.orderReceived, .sheetSaveFailed])

/-- `send_admin_order_notification` (src/bot.py 217-245): nothing when no
admin chat id is configured (empty string is falsy), otherwise the new-order
alert with the four action buttons to the admin chat. -/
def send_admin_order_notification (admin_chat_id : Option String)
    (order_id : String) : List MsgOut :=
  match admin_chat_id with
  | none => []
  | some a => if a = "" then [] else [⟨a, .adminNewOrder order_id⟩]

/-- `process_cash_on_delivery` (src/bot.py 446-503): compute the totals,
generate the order id from the current second `t`, store the tracking record
with status "Pending", attempt the sheet append (logging a warning when it
failed), send the confirmation to the customer, send the admin alert, clear
the customer's cart when one exists (`if chat_id in user_carts`), reset the
session to the main menu and return True.
Returns (return value, new state, messages sent, log events). -/
def process_cash_on_delivery (outcome : SheetOutcome)
    (admin_chat_id : Option String) (st : BotState) (chat_id : ℤ)
    (customer_name phone address : String) (cart : Cart)
    (special_instructions : String) (t : ℕ) (now : String) :
    Bool × BotState × List MsgOut × List LogEvent :=
  let total := (create_enhanced_order_summary cart).2.2
  let order_id := generate_order_id t
  let tracking2 := save_order_tracking st.order_tracking order_id chat_id
    customer_name phone address cart total "Pending" now
  let sheetResult := save_order_to_sheet outcome cart
  let warnLogs : List LogEvent :=
    if sheetResult.1 then [] else [.sheetsFailedWarning]
  let msgs := ⟨toString chat_id, .orderConfirmation order_id total⟩ ::
    send_admin_order_notification admin_chat_id order_id
  let st2 : BotState :=
    { user_carts :=
        if hasKey st.user_carts chat_id then setKey st.user_carts chat_id []
        else st.user_carts,
      user_sessions := setKey st.user_sessions chat_id .main_menu,
      order_tracking := tracking2 }
  (true, st2, msgs, sheetResult.2.2 ++ warnLogs ++ [.codCompleted])

/-!
Reference-semantics model of the nested cart dicts, for the snapshot claim.

In Python the cart `user_carts[chat_id]` is a dict from item name to an
inner `{'price', 'unit', 'quantity'}` dict; the inner dicts are heap objects
reached by reference. `save_order_tracking` stores `cart.copy()`, which
duplicates only the outer mapping: the copy holds references to the same
inner line dicts. The model below makes the references explicit: a heap maps
addresses to `CartLine` records and a cart maps item names to addresses.
-/

/-- Heap of inner line dicts: address to line record. -/
abbrev Heap := List (ℕ × CartLine)

/-- A cart under reference semantics: item name to the address of its line. -/
abbrev CartRef := List (String × ℕ)

/-- `handle_add_to_cart` under reference semantics: on an item already in the
cart, `user_carts[chat_id][item_name]['quantity'] += 1` mutates the inner
dict in the heap through the stored reference; on a new item a fresh inner
dict is allocated (at address `fresh`) and referenced from the cart. -/
def heap_add_to_cart (heap : Heap) (cart : CartRef) (item_name : String)
    (fresh : ℕ) : Heap × CartRef :=
  match find_item item_name with
  | none => (heap, cart)
  | some d =>
      match lookupKey cart item_name with
      | some addr =>
          match lookupKey heap addr with
          | some line =>
              (setKey heap addr { line with quantity := line.quantity + 1 },
               cart)
          | none => (heap, cart)
      | none => ((fresh, ⟨d.1, d.2, 1⟩) :: heap, cart ++ [(item_name, fresh)])

/-- The snapshot stored by `save_order_tracking`: `cart.copy()` copies the
outer dict only, so the stored order cart is the same name-to-reference
table as the live cart. -/
def heap_order_snapshot (cart : CartRef) : CartRef :=
  cart

/-- Dereference a cart: the lines a reader of the stored order actually
sees, obtained by following each stored reference into the heap. -/
def read_cart (heap : Heap) (cart : CartRef) : List (String × Option CartLine) :=
  cart.map (fun p => (p.1, lookupKey heap p.2))

/-- The events that can touch the originating customer's cart after an order
has been created. These cover every statement of src/bot.py that writes
`user_carts` or an inner line dict: the add-to-cart action (564-594, the
only inner-dict mutation being the quantity increment at 579), the
clear-cart command (726-727), and the reset a later checkout performs
(492-493). -/
inductive CartEvent where
  | addItem (item_name : String)
  | clearCart
  | checkoutReset
  deriving Repr, DecidableEq

/-- One event step on (heap, live cart of the customer, allocation counter):
an add runs `heap_add_to_cart` (allocating at the counter when a new line
dict is created); the clear-cart command and the checkout reset both rebind
the customer's cart to a fresh empty dict. -/
def stepCartEvent : Heap × CartRef × ℕ → CartEvent → Heap × CartRef × ℕ
  | (heap, live, fresh), .addItem item =>
      let r := heap_add_to_cart heap live item fresh
      (r.1, r.2, fresh + 1)
  | (heap, _, fresh), .clearCart => (heap, [], fresh)
  | (heap, _, fresh), .checkoutReset => (heap, [], fresh)

/-- Run a sequence of cart events, in receipt order (the event loop of
src/bot.py 811-830 processes events strictly sequentially). -/
def run_cart_events (st : Heap × CartRef × ℕ) (es : List CartEvent) :
    Heap × CartRef × ℕ :=
  es.foldl stepCartEvent st

/-- The heap addresses (inner line dicts) a cart references. -/
def addrsOf (c : CartRef) : List ℕ :=
  c.map Prod.snd

/-!
Theorems about the embedded program.
-/

theorem foldl_add_eq_sum {α : Type} (f : α → ℚ) :
    ∀ (l : List α) (a : ℚ),
      l.foldl (fun acc x => acc + f x) a = a + (l.map f).sum := by
  intro l
  induction l with
  | nil => intro a; simp
  | cons x xs ih => intro a; simp [ih, add_assoc]

/-- The cart of the scenario of claim C1, built through the program itself:
customer 7 adds Apples twice and Milk once starting from an empty cart
store. -/
def apples_milk_cart : Cart :=
  (lookupKey
    (handle_add_to_cart
      (handle_add_to_cart
        (handle_add_to_cart [] 7 "🍎 Apples").1 7 "🍎 Apples").1
      7 "🥛 Milk").1 7).getD []

/-- Claim C1: for every cart the summary subtotal is the sum of unit price
times quantity over the lines, the delivery fee is 0 exactly when the
subtotal is at least 50 and 5 exactly when it is below 50, and the total is
subtotal plus fee; and the Apples ×2 + Milk ×1 scenario yields subtotal
10.97, fee 5, total 15.97 (written as exact fractions). -/
theorem C1_pricing_rule :
    (∀ cart : Cart,
      (create_enhanced_order_summary cart).1
          = (cart.map (fun p => p.2.price * (p.2.quantity : ℚ))).sum
        ∧ ((create_enhanced_order_summary cart).2.1 = 0
            ↔ 50 ≤ (create_enhanced_order_summary cart).1)
        ∧ ((create_enhanced_order_summary cart).2.1 = 5
            ↔ (create_enhanced_order_summary cart).1 < 50)
        ∧ (create_enhanced_order_summary cart).2.2
            = (create_enhanced_order_summary cart).1
              + (create_enhanced_order_summary cart).2.1)
    ∧ create_enhanced_order_summary apples_milk_cart
        = (1097/100, 5, 1597/100) := by
  constructor
  · intro cart
    simp only [create_enhanced_order_summary]
    by_cases h : (cart.map (fun p => p.2.price * (p.2.quantity : ℚ))).sum ≥ 50
    · rw [if_pos h]
      exact ⟨trivial, iff_of_true rfl h,
        iff_of_false (by norm_num) (not_lt.mpr h), trivial⟩
    · rw [if_neg h]
      exact ⟨trivial, iff_of_false (by norm_num) h,
        iff_of_true rfl (lt_of_not_le h), trivial⟩
  · simp [apples_milk_cart, handle_add_to_cart, find_item, grocery_categories,
      lookupKey, hasKey, setKey, incrQty, create_enhanced_order_summary,
      List.findSome?]
    norm_num

/-- Claim C7: the three pricing sites — the cart view, the checkout summary,
and the sheet row preparation — compute the same (subtotal, delivery fee,
total) triple on every cart. -/
theorem C7_pricing_sites_agree :
    ∀ cart : Cart,
      show_cart_totals cart = create_enhanced_order_summary cart
      ∧ create_enhanced_order_summary cart = save_order_to_sheet_totals cart := by
  intro cart
  constructor
  · simp only [show_cart_totals, create_enhanced_order_summary]
    rw [foldl_add_eq_sum (fun p => p.2.price * (p.2.quantity : ℚ)) cart 0]
    simp
  · rfl

theorem lookupKey_mem_values {κ α : Type} [DecidableEq κ]
    (m : List (κ × α)) (k : κ) (v : α) (h : lookupKey m k = some v) :
    v ∈ m.map Prod.snd := by
  induction m with
  | nil => simp [lookupKey] at h
  | cons p rest ih =>
      obtain ⟨k2, v2⟩ := p
      by_cases hk : k2 = k
      · simp [lookupKey, hk] at h
        simp [h]
      · simp [lookupKey, hk] at h
        simp [ih h]

theorem lookupKey_setKey_ne {κ α : Type} [DecidableEq κ]
    (m : List (κ × α)) (k k2 : κ) (v : α) (h : k2 ≠ k) :
    lookupKey (setKey m k v) k2 = lookupKey m k2 := by
  induction m with
  | nil => simp [setKey, lookupKey, Ne.symm h]
  | cons p rest ih =>
      obtain ⟨k3, v3⟩ := p
      by_cases hk : k3 = k
      · subst hk
        simp [setKey, lookupKey, Ne.symm h]
      · simp [setKey, hk, lookupKey, ih]

theorem read_cart_setKey_of_not_mem (heap : Heap) (s : CartRef) (addr : ℕ)
    (v : CartLine) (h : addr ∉ addrsOf s) :
    read_cart (setKey heap addr v) s = read_cart heap s := by
  induction s with
  | nil => rfl
  | cons p rest ih =>
      obtain ⟨n, a⟩ := p
      rw [show addrsOf ((n, a) :: rest) = a :: addrsOf rest from rfl] at h
      have hne : a ≠ addr := by
        intro hq
        subst hq
        exact h (List.mem_cons_self a (addrsOf rest))
      have hrest : addr ∉ addrsOf rest := fun hq => h (List.mem_cons_of_mem a hq)
      simp only [read_cart, List.map_cons]
      rw [lookupKey_setKey_ne heap addr a v hne]
      have htail := ih hrest
      simp only [read_cart] at htail
      rw [htail]

theorem read_cart_cons_of_not_mem (heap : Heap) (s : CartRef) (addr : ℕ)
    (v : CartLine) (h : addr ∉ addrsOf s) :
    read_cart ((addr, v) :: heap) s = read_cart heap s := by
  induction s with
  | nil => rfl
  | cons p rest ih =>
      obtain ⟨n, a⟩ := p
      rw [show addrsOf ((n, a) :: rest) = a :: addrsOf rest from rfl] at h
      have hne : addr ≠ a := by
        intro hq
        subst hq
        exact h (List.mem_cons_self addr (addrsOf rest))
      have hrest : addr ∉ addrsOf rest := fun hq => h (List.mem_cons_of_mem a hq)
      simp only [read_cart, List.map_cons]
      have hlk : lookupKey ((addr, v) :: heap) a = lookupKey heap a := by
        simp [lookupKey, hne]
      rw [hlk]
      have htail := ih hrest
      simp only [read_cart] at htail
      rw [htail]

/-- Frame property of one cart event: when every line dict the snapshot
references was allocated before the counter, every line dict of the live
cart was too, and the live cart shares no line dict with the snapshot, then
one event preserves all three facts and leaves the snapshot's read-back
lines unchanged (an increment mutates a live-cart address, which the
snapshot does not hold; a new line is allocated at the counter, which the
snapshot does not hold either). -/
theorem stepCartEvent_frame (snap : CartRef) (heap : Heap) (live : CartRef)
    (fresh : ℕ) (e : CartEvent)
    (h1 : ∀ a ∈ addrsOf snap, a < fresh)
    (h2 : ∀ a ∈ addrsOf live, a < fresh)
    (h3 : ∀ a ∈ addrsOf live, a ∉ addrsOf snap) :
    (∀ a ∈ addrsOf snap, a < (stepCartEvent (heap, live, fresh) e).2.2)
    ∧ (∀ a ∈ addrsOf (stepCartEvent (heap, live, fresh) e).2.1,
        a < (stepCartEvent (heap, live, fresh) e).2.2)
    ∧ (∀ a ∈ addrsOf (stepCartEvent (heap, live, fresh) e).2.1,
        a ∉ addrsOf snap)
    ∧ read_cart (stepCartEvent (heap, live, fresh) e).1 snap
        = read_cart heap snap := by
  cases e with
  | clearCart =>
      exact ⟨h1, by simp [stepCartEvent, addrsOf],
        by simp [stepCartEvent, addrsOf], rfl⟩
  | checkoutReset =>
      exact ⟨h1, by simp [stepCartEvent, addrsOf],
        by simp [stepCartEvent, addrsOf], rfl⟩
  | addItem item =>
      have hsucc : ∀ a : ℕ, a < fresh → a < fresh + 1 :=
        fun a ha => Nat.lt_succ_of_lt ha
      cases hfi : find_item item with
      | none =>
          have hstep : stepCartEvent (heap, live, fresh) (.addItem item)
              = (heap, live, fresh + 1) := by
            simp [stepCartEvent, heap_add_to_cart, hfi]
          rw [hstep]
          exact ⟨fun a ha => hsucc a (h1 a ha), fun a ha => hsucc a (h2 a ha),
            h3, rfl⟩
      | some d =>
          cases hlk : lookupKey live item with
          | none =>
              have hstep : stepCartEvent (heap, live, fresh) (.addItem item)
                  = ((fresh, ⟨d.1, d.2, 1⟩) :: heap,
                     live ++ [(item, fresh)], fresh + 1) := by
                simp [stepCartEvent, heap_add_to_cart, hfi, hlk]
              rw [hstep]
              have haddrs : addrsOf (live ++ [(item, fresh)])
                  = addrsOf live ++ [fresh] := by
                simp [addrsOf]
              have hfreshsnap : fresh ∉ addrsOf snap :=
                fun hmem => lt_irrefl fresh (h1 fresh hmem)
              refine ⟨fun a ha => hsucc a (h1 a ha), ?_, ?_, ?_⟩
              · intro a ha
                rw [haddrs] at ha
                rcases List.mem_append.mp ha with hmem | hmem
                · exact hsucc a (h2 a hmem)
                · rw [List.mem_singleton.mp hmem]
                  exact Nat.lt_succ_self fresh
              · intro a ha
                rw [haddrs] at ha
                rcases List.mem_append.mp ha with hmem | hmem
                · exact h3 a hmem
                · rw [List.mem_singleton.mp hmem]
                  exact hfreshsnap
              · exact read_cart_cons_of_not_mem heap snap fresh _ hfreshsnap
          | some addr =>
              have haddr : addr ∈ addrsOf live :=
                lookupKey_mem_values live item addr hlk
              cases hha : lookupKey heap addr with
              | none =>
                  have hstep : stepCartEvent (heap, live, fresh) (.addItem item)
                      = (heap, live, fresh + 1) := by
                    simp [stepCartEvent, heap_add_to_cart, hfi, hlk, hha]
                  rw [hstep]
                  exact ⟨fun a ha => hsucc a (h1 a ha),
                    fun a ha => hsucc a (h2 a ha), h3, rfl⟩
              | some line =>
                  have hstep : stepCartEvent (heap, live, fresh) (.addItem item)
                      = (setKey heap addr
                          { line with quantity := line.quantity + 1 },
                         live, fresh + 1) := by
                    simp [stepCartEvent, heap_add_to_cart, hfi, hlk, hha]
                  rw [hstep]
                  exact ⟨fun a ha => hsucc a (h1 a ha),
                    fun a ha => hsucc a (h2 a ha), h3,
                    read_cart_setKey_of_not_mem heap snap addr _
                      (h3 addr haddr)⟩

/-- Running any sequence of cart events from a state whose live cart is
disjoint from the snapshot (and bounded by the allocation counter) never
changes what the snapshot reads back from the heap. -/
theorem run_cart_events_frame (snap : CartRef) :
    ∀ (es : List CartEvent) (heap : Heap) (live : CartRef) (fresh : ℕ),
      (∀ a ∈ addrsOf snap, a < fresh) →
      (∀ a ∈ addrsOf live, a < fresh) →
      (∀ a ∈ addrsOf live, a ∉ addrsOf snap) →
      read_cart (run_cart_events (heap, live, fresh) es).1 snap
        = read_cart heap snap := by
  intro es
  induction es with
  | nil => intro heap live fresh h1 h2 h3; rfl
  | cons e rest ih =>
      intro heap live fresh h1 h2 h3
      have hstep := stepCartEvent_frame snap heap live fresh e h1 h2 h3
      have hrun : run_cart_events (heap, live, fresh) (e :: rest)
          = run_cart_events (stepCartEvent (heap, live, fresh) e) rest := rfl
      rw [hrun]
      rw [ih (stepCartEvent (heap, live, fresh) e).1
            (stepCartEvent (heap, live, fresh) e).2.1
            (stepCartEvent (heap, live, fresh) e).2.2
            hstep.1 hstep.2.1 hstep.2.2.1]
      exact hstep.2.2.2

/-- Claim C2: a stored order's line snapshot is unchanged by every
subsequent mutation of the originating customer's cart. The snapshot stored
by `save_order_tracking` is `cart.copy()` — the outer dict only, so it
references the same inner line dicts as the cart did at checkout. The
property still holds on every reachable execution, because the sole caller
`process_cash_on_delivery` rebinds `user_carts[chat_id]` to a fresh empty
dict (src/bot.py 492-493) before returning — every callee between the save
(456) and the reset swallows its own exceptions, and the event loop is
strictly sequential — so when the next event arrives the originating
customer's live cart is `[]`, sharing no line dict with the snapshot, and
every line dict the snapshot references is already allocated (below the
allocation counter). From that state, any sequence of cart events —
including re-adding an item that existed at checkout time and incrementing
its quantity — leaves the stored order's read-back lines unchanged: adds of
new items allocate fresh inner dicts, and increments mutate only inner
dicts referenced from the live cart, never the snapshot's. -/
theorem C2_order_snapshot_unaffected
    (heap : Heap) (cart : CartRef) (fresh : ℕ)
    (hbound : ∀ a ∈ addrsOf cart, a < fresh)
    (es : List CartEvent) :
    read_cart (run_cart_events (heap, ([] : CartRef), fresh) es).1
        (heap_order_snapshot cart)
      = read_cart heap (heap_order_snapshot cart) :=
  run_cart_events_frame (heap_order_snapshot cart) es heap [] fresh hbound
    (by simp [addrsOf]) (by simp [addrsOf])

/-- Witness for C2: an order checked out with Apples at quantity 2 (its line
dict at address 0, allocation counter 1, live cart reset to empty); the
customer then adds Apples twice — recreating the line and incrementing it —
and the stored snapshot still reads back quantity 2. -/
theorem C2_order_snapshot_unaffected_witness :
    read_cart (run_cart_events ([(0, ⟨399/100, "kg", 2⟩)], ([] : CartRef), 1)
        [.addItem "🍎 Apples", .addItem "🍎 Apples"]).1
        (heap_order_snapshot [("🍎 Apples", 0)])
      = read_cart [(0, ⟨399/100, "kg", 2⟩)]
          (heap_order_snapshot [("🍎 Apples", 0)]) :=
  C2_order_snapshot_unaffected [(0, ⟨399/100, "kg", 2⟩)] [("🍎 Apples", 0)] 1
    (by decide) [.addItem "🍎 Apples", .addItem "🍎 Apples"]

theorem hasKey_append_singleton_self {κ α : Type} [DecidableEq κ]
    (m : List (κ × α)) (k : κ) (v : α) :
    hasKey (m ++ [(k, v)]) k = true := by
  induction m with
  | nil => simp [hasKey]
  | cons p rest ih =>
      obtain ⟨k2, v2⟩ := p
      by_cases h : k2 = k <;> simp [hasKey, h, ih]

theorem incrQty_append_of_hasKey_false
    (m : Cart) (k : String) (v : CartLine) (h : hasKey m k = false) :
    incrQty (m ++ [(k, v)]) k
      = m ++ [(k, { v with quantity := v.quantity + 1 })] := by
  induction m with
  | nil => simp [incrQty]
  | cons p rest ih =>
      obtain ⟨k2, v2⟩ := p
      by_cases hk : k2 = k
      · simp [hasKey, hk] at h
      · simp [hasKey, hk] at h
        simp [incrQty, hk, ih h]

theorem filter_key_nil_of_hasKey_false {κ α : Type} [DecidableEq κ]
    (m : List (κ × α)) (k : κ) (h : hasKey m k = false) :
    m.filter (fun q => q.1 = k) = [] := by
  induction m with
  | nil => simp
  | cons p rest ih =>
      obtain ⟨k2, v2⟩ := p
      by_cases hk : k2 = k
      · simp [hasKey, hk] at h
      · simp [hasKey, hk] at h
        simp [List.filter, hk, ih h]

/-- Claim C8: when an item is in the catalog (with price `p` and unit `u`)
and the customer's cart has no line for it yet, handling the add-to-cart
action twice leaves the customer's cart with its old lines plus exactly one
line for the item, of quantity 2, carrying the catalog price and unit. -/
theorem C8_add_item_twice
    (carts : List (ℤ × Cart)) (chat_id : ℤ) (item : String) (p : ℚ) (u : String)
    (hfind : find_item item = some (p, u))
    (hnotin : hasKey ((lookupKey carts chat_id).getD []) item = false) :
    ((lookupKey
        (handle_add_to_cart
          (handle_add_to_cart carts chat_id item).1 chat_id item).1
        chat_id).getD [])
      = ((lookupKey carts chat_id).getD []) ++ [(item, ⟨p, u, 2⟩)]
    ∧ (((lookupKey
          (handle_add_to_cart
            (handle_add_to_cart carts chat_id item).1 chat_id item).1
          chat_id).getD []).filter (fun q => q.1 = item))
        = [(item, ⟨p, u, 2⟩)] := by
  have h1 : (handle_add_to_cart carts chat_id item).1
      = setKey carts chat_id
          (((lookupKey carts chat_id).getD []) ++ [(item, ⟨p, u, 1⟩)]) := by
    simp [handle_add_to_cart, hfind, hnotin]
  have h2 : (handle_add_to_cart
        (handle_add_to_cart carts chat_id item).1 chat_id item).1
      = setKey (handle_add_to_cart carts chat_id item).1 chat_id
          (((lookupKey carts chat_id).getD []) ++ [(item, ⟨p, u, 2⟩)]) := by
    rw [h1]
    simp [handle_add_to_cart, hfind, lookupKey_setKey_self,
      hasKey_append_singleton_self,
      incrQty_append_of_hasKey_false _ _ _ hnotin]
  have h3 : (lookupKey
        (handle_add_to_cart
          (handle_add_to_cart carts chat_id item).1 chat_id item).1
        chat_id).getD []
      = ((lookupKey carts chat_id).getD []) ++ [(item, ⟨p, u, 2⟩)] := by
    rw [h2, lookupKey_setKey_self]
    rfl
  refine ⟨h3, ?_⟩
  rw [h3, List.filter_append, filter_key_nil_of_hasKey_false _ _ hnotin]
  simp

/-- Witness for C8: Apples added twice by customer 1 starting from an empty
cart store yields the single line (Apples, 3.99, kg, quantity 2). -/
theorem C8_add_item_twice_witness :
    ((lookupKey
        (handle_add_to_cart
          (handle_add_to_cart ([] : List (ℤ × Cart)) 1 "🍎 Apples").1
          1 "🍎 Apples").1 1).getD [])
      = [("🍎 Apples", ⟨399/100, "kg", 2⟩)]
    ∧ (((lookupKey
          (handle_add_to_cart
            (handle_add_to_cart ([] : List (ℤ × Cart)) 1 "🍎 Apples").1
            1 "🍎 Apples").1 1).getD []).filter (fun q => q.1 = "🍎 Apples"))
        = [("🍎 Apples", ⟨399/100, "kg", 2⟩)] := by
  have h := C8_add_item_twice [] 1 "🍎 Apples" (399/100) "kg"
    (by simp [find_item, grocery_categories, lookupKey, List.findSome?])
    (by simp [lookupKey, hasKey])
  simpa [lookupKey] using h

/-- Claim C4: an admin-prefixed action token from a sender whose id differs
from the configured admin id gets only the unauthorized notice; the whole
bot state — order tracker, sessions, carts — is returned unchanged. -/
theorem C4_unauthorized_admin_token_no_mutation
    (admin_chat_id : Option String) (st : BotState) (chat_id : ℤ)
    (callback_data now : String) (a : String)
    (hcfg : admin_chat_id = some a)
    (hne : toString chat_id ≠ a)
    (hpre : startswith callback_data "ship_" = true
          ∨ startswith callback_data "cancel_" = true
          ∨ startswith callback_data "deliver_" = true
          ∨ startswith callback_data "details_" = true) :
    handle_admin_callback admin_chat_id st chat_id callback_data now
      = (st, [⟨toString chat_id, .unauthorized⟩]) := by
  subst hcfg
  have hguard : adminAuthFails (some a) chat_id = true := by
    simp [adminAuthFails, hne]
  simp [handle_admin_callback, hguard]

/-- Witness for C4: sender 7 is not the configured admin "42"; the ship
token leaves the empty state unchanged and yields the unauthorized notice. -/
theorem C4_unauthorized_admin_token_no_mutation_witness :
    handle_admin_callback (some "42") ⟨[], [], []⟩ 7 "ship_ORD1" "t"
      = (⟨[], [], []⟩, [⟨toString (7 : ℤ), .unauthorized⟩]) :=
  C4_unauthorized_admin_token_no_mutation (some "42") ⟨[], [], []⟩ 7
    "ship_ORD1" "t" "42" rfl (by decide) (Or.inl (by decide))

/-- Claim C6: updating the status of an order id absent from the tracker
returns failure, leaves the tracker unchanged and sends nothing. -/
theorem C6_unknown_order_update_fails
    (tracking : List (String × Order)) (order_id new_status admin_note now : String)
    (habs : lookupKey tracking order_id = none) :
    update_order_status tracking order_id new_status admin_note now
      = (false, tracking, []) := by
  simp [update_order_status, habs]

/-- Witness for C6: the empty tracker knows no order "ORD1". -/
theorem C6_unknown_order_update_fails_witness :
    update_order_status [] "ORD1" "Shipped" "" "t" = (false, [], []) :=
  C6_unknown_order_update_fails [] "ORD1" "Shipped" "" "t" rfl

/-- Claim C9: updating an existing order to a status outside
Shipped/Cancelled/Delivered still updates the record's status and
updated_at, returns success, and sends no customer notification. -/
theorem C9_unknown_status_updates_silently
    (tracking : List (String × Order)) (order_id new_status admin_note now : String)
    (order : Order)
    (hfound : lookupKey tracking order_id = some order)
    (h1 : new_status ≠ "Shipped") (h2 : new_status ≠ "Cancelled")
    (h3 : new_status ≠ "Delivered") :
    update_order_status tracking order_id new_status admin_note now
      = (true,
         setKey tracking order_id
           { order with status := new_status, updated_at := now },
         []) := by
  simp [update_order_status, hfound, notify_customer_order_update,
    lookupKey_setKey_self, h1, h2, h3]

/-- A concrete order record used by witnesses. -/
def sample_order : Order :=
  { chat_id := 5, customer_name := "Ann", phone := "p", address := "ad",
    cart := [("🥛 Milk", ⟨299/100, "liter", 1⟩)], total := 799/100,
    status := "Pending", created_at := "c", updated_at := "c" }

/-- Witness for C9: status "Refunded" on an existing order updates the
record and sends nothing. -/
theorem C9_unknown_status_updates_silently_witness :
    update_order_status [("ORD1", sample_order)] "ORD1" "Refunded" "" "t"
      = (true,
         setKey [("ORD1", sample_order)] "ORD1"
           { sample_order with status := "Refunded", updated_at := "t" },
         []) :=
  C9_unknown_status_updates_silently [("ORD1", sample_order)] "ORD1"
    "Refunded" "" "t" sample_order (by simp [lookupKey])
    (by decide) (by decide) (by decide)

theorem countKey_setKey_setKey_of_lookup_none {κ α : Type} [DecidableEq κ]
    (m : List (κ × α)) (k : κ) (v1 v2 : α) (h : lookupKey m k = none) :
    countKey (setKey (setKey m k v1) k v2) k = 1 := by
  rw [setKey_of_lookup_none m k v1 h, setKey_append_of_lookup_none _ _ _ _ h,
    countKey_append, countKey_eq_zero_of_lookup_none m k h]
  simp [setKey, countKey]

/-- Claim C5, amended: when the sheet append fails, `process_cash_on_delivery`
still returns True, the order is stored with status "Pending", the customer
gets the confirmation (and nothing else — the only other message is the
standard new-order alert to the admin chat), the cart is cleared when one
exists, the session is reset to the main menu, and the failure shows up
only as the warning log event — no ledger-failure message is sent to any
chat. -/
theorem C5_ledger_failure_nonfatal
    (admin_chat_id : Option String) (st : BotState) (chat_id : ℤ)
    (customer_name phone address : String) (cart : Cart)
    (special_instructions : String) (t : ℕ) (now : String) :
    let r := process_cash_on_delivery .appendFail admin_chat_id st chat_id
      customer_name phone address cart special_instructions t now
    r.1 = true
    ∧ lookupKey r.2.1.order_tracking (generate_order_id t)
        = some
            { chat_id := chat_id, customer_name := customer_name,
              phone := phone, address := address, cart := cart,
              total := (create_enhanced_order_summary cart).2.2,
              status := "Pending", created_at := now, updated_at := now }
    ∧ r.2.2.1 = ⟨toString chat_id,
          .orderConfirmation (generate_order_id t)
            (create_enhanced_order_summary cart).2.2⟩ ::
        send_admin_order_notification admin_chat_id (generate_order_id t)
    ∧ lookupKey r.2.1.user_sessions chat_id = some .main_menu
    ∧ r.2.1.user_carts = (if hasKey st.user_carts chat_id
        then setKey st.user_carts chat_id [] else st.user_carts)
    ∧ r.2.2.2 = [.orderReceived, .sheetSaveFailed, .sheetsFailedWarning,
        .codCompleted] :=
  ⟨rfl, lookupKey_setKey_self _ _ _, rfl, lookupKey_setKey_self _ _ _,
   rfl, rfl⟩

/-- Counterexample to claim C5 as stated: checking out with a failing sheet
append, the configured admin chat ("999") receives only the standard
new-order alert — no ledger-failure warning is sent to the admin channel;
the failure appears only among the log events. (The customer confirmation
goes to chat "1", which is not the admin chat.) -/
theorem C5_no_warning_message_to_admin_chat :
    (process_cash_on_delivery .appendFail (some "999") ⟨[], [], []⟩ 1 "Alice"
        "111" "A St" [("🥛 Milk", ⟨299/100, "liter", 1⟩)] "" 1700000000
        "now").2.2.1
      = [⟨toString (1 : ℤ),
            .orderConfirmation (generate_order_id 1700000000) (799/100)⟩,
         ⟨"999", .adminNewOrder (generate_order_id 1700000000)⟩]
    ∧ toString (1 : ℤ) ≠ "999"
    ∧ (process_cash_on_delivery .appendFail (some "999") ⟨[], [], []⟩ 1 "Alice"
        "111" "A St" [("🥛 Milk", ⟨299/100, "liter", 1⟩)] "" 1700000000
        "now").2.2.2
      = [.orderReceived, .sheetSaveFailed, .sheetsFailedWarning,
         .codCompleted] := by
  refine ⟨?_, by decide, rfl⟩
  simp [process_cash_on_delivery, create_enhanced_order_summary,
    send_admin_order_notification, save_order_to_sheet]
  norm_num

/-- Counterexample to claim C3: two checkout finalizations within the same
wall-clock second (t = 1700000000), for the different customers 1 and 2, do
not get distinct orderIds — afterwards the tracker holds a single order id,
and the single record under it belongs to customer 2. -/
theorem C3_counterexample_same_second_collision :
    ((process_cash_on_delivery .appendOk none
        (process_cash_on_delivery .appendOk none ⟨[], [], []⟩ 1 "Alice" "111"
          "A St" [("🥛 Milk", ⟨299/100, "liter", 1⟩)] "" 1700000000
          "now").2.1
        2 "Bob" "222" "B St" [("🍌 Bananas", ⟨199/100, "kg", 2⟩)] ""
        1700000000 "now").2.1).order_tracking.map Prod.fst
      = [generate_order_id 1700000000]
    ∧ ((process_cash_on_delivery .appendOk none
        (process_cash_on_delivery .appendOk none ⟨[], [], []⟩ 1 "Alice" "111"
          "A St" [("🥛 Milk", ⟨299/100, "liter", 1⟩)] "" 1700000000
          "now").2.1
        2 "Bob" "222" "B St" [("🍌 Bananas", ⟨199/100, "kg", 2⟩)] ""
        1700000000 "now").2.1).order_tracking.map (fun q => q.2.chat_id)
      = [2] := by
  constructor
  · simp [process_cash_on_delivery, save_order_tracking, setKey, hasKey,
      save_order_to_sheet, create_enhanced_order_summary,
      send_admin_order_notification]
  · simp [process_cash_on_delivery, save_order_tracking, setKey, hasKey,
      save_order_to_sheet, create_enhanced_order_summary,
      send_admin_order_notification]

/-- Claim C3, amended: two checkout finalizations in the same wall-clock
second (the order id is derived from the integer second alone) do not
produce two distinct orderIds: whatever the two customers and carts, the
tracker ends up with exactly one entry under the generated id, and that
entry is the second customer's order. -/
theorem C3_amended_same_second_single_entry
    (outcome1 outcome2 : SheetOutcome) (admin_chat_id : Option String)
    (st : BotState) (t : ℕ) (c1 c2 : ℤ)
    (n1 p1 a1 i1 n2 p2 a2 i2 : String) (cart1 cart2 : Cart)
    (now1 now2 : String)
    (hfresh : lookupKey st.order_tracking (generate_order_id t) = none) :
    countKey ((process_cash_on_delivery outcome2 admin_chat_id
        (process_cash_on_delivery outcome1 admin_chat_id st c1 n1 p1 a1 cart1
          i1 t now1).2.1
        c2 n2 p2 a2 cart2 i2 t now2).2.1).order_tracking (generate_order_id t)
      = 1
    ∧ (lookupKey ((process_cash_on_delivery outcome2 admin_chat_id
        (process_cash_on_delivery outcome1 admin_chat_id st c1 n1 p1 a1 cart1
          i1 t now1).2.1
        c2 n2 p2 a2 cart2 i2 t now2).2.1).order_tracking
        (generate_order_id t)).map (fun o => o.chat_id) = some c2 := by
  constructor
  · exact countKey_setKey_setKey_of_lookup_none st.order_tracking
      (generate_order_id t) _ _ hfresh
  · have hlook : lookupKey ((process_cash_on_delivery outcome2 admin_chat_id
        (process_cash_on_delivery outcome1 admin_chat_id st c1 n1 p1 a1 cart1
          i1 t now1).2.1
        c2 n2 p2 a2 cart2 i2 t now2).2.1).order_tracking
        (generate_order_id t)
        = some
            { chat_id := c2, customer_name := n2, phone := p2,
              address := a2, cart := cart2,
              total := (create_enhanced_order_summary cart2).2.2,
              status := "Pending", created_at := now2, updated_at := now2 } :=
      lookupKey_setKey_self _ _ _
    rw [hlook]
    rfl

/-- Witness for the amended C3: the concrete same-second double checkout of
the counterexample, started from the empty state (whose tracker trivially
lacks the id). -/
theorem C3_amended_same_second_single_entry_witness :
    countKey ((process_cash_on_delivery .appendOk none
        (process_cash_on_delivery .appendOk none ⟨[], [], []⟩ 1 "Alice" "111"
          "A St" [("🥛 Milk", ⟨299/100, "liter", 1⟩)] "" 1700000000
          "now").2.1
        2 "Bob" "222" "B St" [("🍌 Bananas", ⟨199/100, "kg", 2⟩)] ""
        1700000000 "now").2.1).order_tracking (generate_order_id 1700000000)
      = 1
    ∧ (lookupKey ((process_cash_on_delivery .appendOk none
        (process_cash_on_delivery .appendOk none ⟨[], [], []⟩ 1 "Alice" "111"
          "A St" [("🥛 Milk", ⟨299/100, "liter", 1⟩)] "" 1700000000
          "now").2.1
        2 "Bob" "222" "B St" [("🍌 Bananas", ⟨199/100, "kg", 2⟩)] ""
        1700000000 "now").2.1).order_tracking
        (generate_order_id 1700000000)).map (fun o => o.chat_id) = some 2 :=
  C3_amended_same_second_single_entry .appendOk .appendOk none ⟨[], [], []⟩
    1700000000 1 2 "Alice" "111" "A St" "" "Bob" "222" "B St" ""
    [("🥛 Milk", ⟨299/100, "liter", 1⟩)] [("🍌 Bananas", ⟨199/100, "kg", 2⟩)]
    "now" "now" rfl

/-- Claim C10: two orders saved in the same wall-clock second share the
generated order id; the second `save_order_tracking` silently overwrites the
first record — after both saves the tracker maps the id to the second
customer's record, holds exactly one entry for it, and (the customers being
different) the first customer's record is no longer retrievable. -/
theorem C10_same_second_overwrites
    (tr : List (String × Order)) (t : ℕ) (c1 c2 : ℤ)
    (n1 p1 a1 n2 p2 a2 : String) (cart1 cart2 : Cart) (tot1 tot2 : ℚ)
    (now1 now2 : String)
    (hfresh : lookupKey tr (generate_order_id t) = none)
    (hne : c1 ≠ c2) :
    lookupKey (save_order_tracking tr (generate_order_id t) c1 n1 p1 a1 cart1
        tot1 "Pending" now1) (generate_order_id t)
      = some ⟨c1, n1, p1, a1, cart1, tot1, "Pending", now1, now1⟩
    ∧ lookupKey (save_order_tracking
        (save_order_tracking tr (generate_order_id t) c1 n1 p1 a1 cart1 tot1
          "Pending" now1)
        (generate_order_id t) c2 n2 p2 a2 cart2 tot2 "Pending" now2)
        (generate_order_id t)
      = some ⟨c2, n2, p2, a2, cart2, tot2, "Pending", now2, now2⟩
    ∧ countKey (save_order_tracking
        (save_order_tracking tr (generate_order_id t) c1 n1 p1 a1 cart1 tot1
          "Pending" now1)
        (generate_order_id t) c2 n2 p2 a2 cart2 tot2 "Pending" now2)
        (generate_order_id t) = 1
    ∧ lookupKey (save_order_tracking
        (save_order_tracking tr (generate_order_id t) c1 n1 p1 a1 cart1 tot1
          "Pending" now1)
        (generate_order_id t) c2 n2 p2 a2 cart2 tot2 "Pending" now2)
        (generate_order_id t)
      ≠ some ⟨c1, n1, p1, a1, cart1, tot1, "Pending", now1, now1⟩ := by
  refine ⟨lookupKey_setKey_self _ _ _, lookupKey_setKey_self _ _ _,
    countKey_setKey_setKey_of_lookup_none tr (generate_order_id t) _ _ hfresh,
    ?_⟩
  rw [save_order_tracking, lookupKey_setKey_self]
  intro hcontra
  exact hne (congrArg Order.chat_id (Option.some.inj hcontra)).symm

/-- Witness for C10: the concrete same-second double save, starting from the
empty tracker, for customers 1 and 2. -/
theorem C10_same_second_overwrites_witness :
    lookupKey (save_order_tracking [] (generate_order_id 1700000000) 1 "Alice"
        "111" "A St" [] 5 "Pending" "now") (generate_order_id 1700000000)
      = some ⟨1, "Alice", "111", "A St", [], 5, "Pending", "now", "now"⟩
    ∧ lookupKey (save_order_tracking
        (save_order_tracking [] (generate_order_id 1700000000) 1 "Alice" "111"
          "A St" [] 5 "Pending" "now")
        (generate_order_id 1700000000) 2 "Bob" "222" "B St" [] 5 "Pending"
        "now") (generate_order_id 1700000000)
      = some ⟨2, "Bob", "222", "B St", [], 5, "Pending", "now", "now"⟩
    ∧ countKey (save_order_tracking
        (save_order_tracking [] (generate_order_id 1700000000) 1 "Alice" "111"
          "A St" [] 5 "Pending" "now")
        (generate_order_id 1700000000) 2 "Bob" "222" "B St" [] 5 "Pending"
        "now") (generate_order_id 1700000000) = 1
    ∧ lookupKey (save_order_tracking
        (save_order_tracking [] (generate_order_id 1700000000) 1 "Alice" "111"
          "A St" [] 5 "Pending" "now")
        (generate_order_id 1700000000) 2 "Bob" "222" "B St" [] 5 "Pending"
        "now") (generate_order_id 1700000000)
      ≠ some ⟨1, "Alice", "111", "A St", [], 5, "Pending", "now", "now"⟩ :=
  C10_same_second_overwrites [] 1700000000 1 2 "Alice" "111" "A St" "Bob"
    "222" "B St" [] [] 5 5 "now" "now" rfl (by decide)

end FreshMart
